import Mathlib

/-!
Shallow embedding of the `googlecast` Cast device client
(package `googlecast`, file with `NewCastFromRecord`, `ConnectWithTimeout`,
`Disconnect`, `UpdateStatus`, `SetVolume`, `SetApp`, and the `Req*` request
methods).  Machine integers are modelled as `Nat`; the `float32` volume level
is modelled as `ℚ` (the clamping comparisons against 0 and 1 and the equality
test against 0 used by the source are exact for every value the claims
mention).  The `connection` and `channel` collaborators of the `Cast` struct
live in repository files that are not part of the sources at hand; their
observable outcomes are abstracted into an `Env` of oracle functions, and the
behaviour the specification fixes for them (`connection.send`,
`connection.Connect`) is modelled from the spec where indicated.
Request methods additionally return the list of external `Action`s they
performed, so that "issues exactly one outbound request" and "step 2 is not
attempted" are statable.
-/

namespace GoogleCast

/-- Errors of the client, mirroring the `gopi` error values used by the
source: `gopi.ErrNotFound.WithPrefix(a, b)`, `gopi.ErrOutOfOrder.WithPrefix(x)`,
transport failures, and `multierror` aggregation.  `external` stands for any
other error produced by the abstracted connection/channel layer. -/
inductive CastError where
  | notFound (ctx msg : String)
  | outOfOrder (ctx : String)
  | transport (msg : String)
  | external (msg : String)
  | aggregate (errs : List CastError)

/-- Connection lifecycle states of a device, from the spec's
ConnectionState enum: Disconnected, Connecting, Connected. -/
inductive ConnState where
  | disconnected
  | connecting
  | connected
deriving DecidableEq, Repr

/-- Volume state: `type Volume struct { Level float32; Muted bool }`
(declared in a repository file outside the given sources; its shape is fixed
by the spec's VolumeState: level, muted and by the literals
`Volume{level, false}`, `Volume{0, true}` in the source).  `float32` is
modelled as `ℚ`. -/
structure Volume where
  level : ℚ
  muted : Bool
deriving DecidableEq, Repr

/-- Modelled from the spec: `Volume.Equals` is declared outside the given
sources; the spec fixes it as value-equality comparison of the volume state. -/
def Volume.Equals (a b : Volume) : Bool :=
  a.level = b.level && a.muted = b.muted

/-- App state, from the spec's AppState: application identifier, display
name, transport identifier, status text (the source reads fields
`DisplayName` and `TransportId`). -/
structure App where
  appId : String
  displayName : String
  transportId : String
  statusText : String
deriving DecidableEq, Repr

/-- Modelled from the spec: `App.Equals` is declared outside the given
sources; the spec fixes it as value-equality comparison of the app state. -/
def App.Equals (a b : App) : Bool :=
  a.appId = b.appId && a.displayName = b.displayName
    && a.transportId = b.transportId && a.statusText = b.statusText

/-- A discovered `gopi.ServiceRecord` as consumed by `NewCastFromRecord`:
`r.Port()`, `r.Addrs()` (addresses kept in their printed form) and
`r.Txt()`. -/
structure ServiceRecord where
  port : Nat
  addrs : List String
  txt : List String

/-- The `Cast` struct: identity fields `id, fn, md, rs, st, ips, port`,
cached `volume` and `app` state, and the state of the embedded `connection`
(modelled by its lifecycle state). -/
structure Cast where
  id : String
  fn : String
  md : String
  rs : String
  st : Nat
  ips : List String
  port : Nat
  volume : Option Volume
  app : Option App
  conn : ConnState

/-! ### `strconv.ParseUint(s, 0, 64)` -/

/-- Go's `lower(c) = c | ('x' - 'X')` on a byte, as a code point. -/
def lowerCh (c : Char) : Nat := c.toNat ||| 0x20

/-- Go's `underscoreOK` scan over the number proper: `saw` tracks the last
character class (`^` beginning, `0` digit/base prefix, `_` underscore,
`!` other). -/
def underscoreOKAux (hex : Bool) : Char → List Char → Bool
  | saw, [] => saw != '_'
  | saw, c :: rest =>
    if ('0' ≤ c && c ≤ '9') || (hex && 'a' ≤ Char.ofNat (lowerCh c) && Char.ofNat (lowerCh c) ≤ 'f') then
      underscoreOKAux hex '0' rest
    else if c = '_' then
      if saw ≠ '0' then false else underscoreOKAux hex '_' rest
    else if saw = '_' then false
    else underscoreOKAux hex '!' rest

/-- Go's `strconv.underscoreOK s`: underscores may appear only between
digits or right after a base prefix. -/
def underscoreOK (s : String) : Bool :=
  let cs := s.toList
  let cs := match cs with
    | c :: rest => if c = '-' || c = '+' then rest else cs
    | [] => cs
  match cs with
  | '0' :: b :: rest =>
    if lowerCh b = 'b'.toNat || lowerCh b = 'o'.toNat || lowerCh b = 'x'.toNat then
      underscoreOKAux (lowerCh b = 'x'.toNat) '0' rest
    else underscoreOKAux false '^' cs
  | _ => underscoreOKAux false '^' cs

/-- `2^64 - 1`, Go's `maxUint64`. -/
def maxUint64 : Nat := 2 ^ 64 - 1

/-- The digit-accumulation loop of `strconv.ParseUint` with `base0 = true`:
underscores are skipped (legality checked separately by `underscoreOK`),
a digit out of range for the base is a syntax error, and the overflow
checks against `cutoff`/`maxVal` are range errors; all errors collapse to
`none` because the caller only tests `err == nil`. -/
def parseDigits (base cutoff maxVal : Nat) : Nat → List Char → Option Nat
  | n, [] => some n
  | n, c :: rest =>
    if c = '_' then parseDigits base cutoff maxVal n rest
    else
      match (if '0' ≤ c && c ≤ '9' then some (c.toNat - '0'.toNat)
             else if 'a'.toNat ≤ lowerCh c && lowerCh c ≤ 'z'.toNat then
               some (lowerCh c - 'a'.toNat + 10)
             else none) with
      | none => none
      | some d =>
        if base ≤ d then none
        else if cutoff ≤ n then none
        else if maxVal < n * base + d then none
        else parseDigits base cutoff maxVal (n * base + d) rest

/-- Go's `strconv.ParseUint(s, 0, 64)`: base auto-detection from the
`0b`/`0o`/`0x`/leading-zero prefix, digit accumulation, overflow checks,
and the underscore-placement check on the original string.  Returns `none`
whenever Go would return a non-nil error (the source drops the value in
that case). -/
def parseUint0 (s : String) : Option Nat :=
  if s = "" then none
  else
    let p : Nat × List Char :=
      match s.toList with
      | '0' :: b :: rest =>
        if rest ≠ [] && lowerCh b = 'b'.toNat then (2, rest)
        else if rest ≠ [] && lowerCh b = 'o'.toNat then (8, rest)
        else if rest ≠ [] && lowerCh b = 'x'.toNat then (16, rest)
        else (8, b :: rest)
      | '0' :: [] => (8, [])
      | cs => (10, cs)
    match parseDigits p.1 (maxUint64 / p.1 + 1) maxUint64 0 p.2 with
    | none => none
    | some n => if underscoreOK s then some n else none

/-! ### `txtToMap` -/

/-- One Go map assignment `m[k] = v`: overwrite the entry if the key is
present, append otherwise. -/
def mapInsert (m : List (String × String)) (k v : String) : List (String × String) :=
  if m.any (fun p => p.1 = k) then
    m.map (fun p => if p.1 = k then (k, v) else p)
  else m ++ [(k, v)]

/-- Go map lookup `v, exists := m[k]`. -/
def mapGet (m : List (String × String)) (k : String) : Option String :=
  (m.find? (fun p => p.1 = k)).map (fun p => p.2)

/-- Split a character list at its first `=`, if any: the behaviour of Go's
`strings.SplitN(r, "=", 2)` (the remainder may contain further `=`). -/
def splitAtEq : List Char → Option (List Char × List Char)
  | [] => none
  | c :: rest =>
    if c = '=' then some ([], rest)
    else (splitAtEq rest).map (fun p => (c :: p.1, p.2))

/-- `txtToMap`: each TXT entry is split at the first `=`
(`strings.SplitN(r, "=", 2)`); with a `=` the two halves are key and value,
without one the whole entry maps to the empty string. -/
def txtToMap (txt : List String) : List (String × String) :=
  txt.foldl
    (fun m r =>
      match splitAtEq r.toList with
      | none => mapInsert m r ""
      | some (k, v) => mapInsert m (String.mk k) (String.mk v))
    []

/-! ### `NewCastFromRecord` -/

/-- `NewCastFromRecord r`: fails (returns `none`, Go `nil`) when the port is
zero, the address list is empty, or the TXT `id` is absent or empty; the
friendly name `fn` defaults to the id when absent or empty; `md` and `rs`
default to empty; `st` is parsed with `strconv.ParseUint(st, 0, 64)` and
left zero on a parse error.  A fresh `Cast` starts with no cached volume or
app state and a disconnected connection. -/
def newCastFromRecord (r : ServiceRecord) : Option Cast :=
  if r.port = 0 then none
  else if r.addrs.length = 0 then none
  else
    let tuples := txtToMap r.txt
    match mapGet tuples "id" with
    | none => none
    | some i =>
      if i = "" then none
      else
        some
          { id := i
            fn := match mapGet tuples "fn" with
                  | some f => if f = "" then i else f
                  | none => i
            md := (mapGet tuples "md").getD ""
            rs := (mapGet tuples "rs").getD ""
            st := match mapGet tuples "st" with
                  | some s => (parseUint0 s).getD 0
                  | none => 0
            ips := r.addrs
            port := r.port
            volume := none
            app := none
            conn := ConnState.disconnected }

/-- `Id()` accessor. -/
def Cast.Id (c : Cast) : String := c.id

/-- `Name()` accessor: returns the friendly name field `fn`. -/
def Cast.Name (c : Cast) : String := c.fn

/-- `Model()` accessor. -/
def Cast.Model (c : Cast) : String := c.md

/-! ### Connection / channel environment -/

/-- Observable external effects of a request method: `send d` is one framed
write on the transport (`this.send(data)`), the `enc*` actions are the
channel encode calls with their arguments, `connect addr` is the call to
`connection.Connect` with the chosen address. -/
inductive Action where
  | send (d : String)
  | encGetStatus
  | encLaunchApp (appId : String)
  | encSetVolume (v : Volume)
  | encSetMuted (muted : Bool)
  | encConnectMedia (transportId : String)
  | encLoadUrl (transportId url mimetype : String) (autoplay : Bool)
  | connect (addr : String)
deriving DecidableEq, Repr

/-- Outcomes of the `connection`/`channel` collaborators, which live in
repository files outside the given sources.  Each channel encoder returns a
correlation id and a serialized payload or an error (`_, data, err := ...` in
the source); `sendOut` is the transport write outcome on an established
connection; `connectOut addr` is the outcome of `connection.Connect` at an
address; `teardown` is the outcome of `connection.Disconnect`. -/
structure Env where
  getStatus : Except CastError (Nat × String)
  launchAppWithId : String → Except CastError (Nat × String)
  setVolume : Volume → Except CastError (Nat × String)
  setMuted : Bool → Except CastError (Nat × String)
  connectMedia : String → Except CastError (Nat × String)
  loadUrl : String → String → String → Bool → Except CastError (Nat × String)
  sendOut : String → Option CastError
  connectOut : String → Option CastError
  teardown : Option CastError

/-- Modelled from the spec: `connection.send` is declared outside the given
sources; §4.2 fixes it as "writes one framed message on the open transport;
fails with a transport error if the connection is not currently
established". -/
def sendMsg (env : Env) (c : Cast) (d : String) : Option CastError :=
  if c.conn = ConnState.connected then env.sendOut d
  else some (CastError.transport "connection not established")

/-- Modelled from the spec: `connection.Connect` is declared outside the
given sources; §4.2 fixes that calling it while already connected fails
with an ordering error, and otherwise the outcome is that of the transport
dial (abstracted by `env.connectOut`). -/
def connConnect (env : Env) (c : Cast) (addr : String) : Option CastError :=
  if c.conn = ConnState.connected then some (CastError.outOfOrder "Connect")
  else env.connectOut addr

/-! ### Lifecycle methods -/

/-- `ConnectWithTimeout`: with no candidate address, fails with
`gopi.ErrNotFound.WithPrefix("ConnectWithTimeout", "No Address")`; otherwise
dials exactly the first address `fmt.Sprintf("%v:%v", ips[0], port)` via
`connection.Connect`; a connect error is returned with the cast unchanged;
on success the cached volume and app state are reset to unknown.  The
timeout and the two sink channels are consumed by the abstracted
`connection.Connect` and do not appear in the model. -/
def connectWithTimeout (env : Env) (c : Cast) :
    List Action × Cast × Option CastError :=
  match c.ips with
  | [] => ([], c, some (CastError.notFound "ConnectWithTimeout" "No Address"))
  | ip :: _ =>
    let addr := ip ++ ":" ++ toString c.port
    match connConnect env c addr with
    | some e => ([Action.connect addr], c, some e)
    | none =>
      ([Action.connect addr],
       { c with volume := none, app := none, conn := ConnState.connected },
       none)

/-- `Disconnect`: tears down the connection (`connection.Disconnect`,
abstracted by `env.teardown`; per §4.2 it terminates the dispatch loop, so
the modelled connection state becomes disconnected), appends any teardown
error to a fresh `multierror` result, and always resets the cached volume
and app state to unknown. -/
def disconnect (env : Env) (c : Cast) : Cast × Option CastError :=
  ({ c with volume := none, app := none, conn := ConnState.disconnected },
   env.teardown.map (fun e => CastError.aggregate [e]))

/-! ### State methods -/

/-- `UpdateStatus`: under a read lock (no field is written, so the cast is
returned unchanged), when the cached volume or app state is unknown, encode
a `GetStatus` message and send it; otherwise do nothing.  Returns the
unchanged cast, the performed actions, and the error result. -/
def updateStatus (env : Env) (c : Cast) :
    Cast × List Action × Option CastError :=
  if c.volume.isNone || c.app.isNone then
    match env.getStatus with
    | Except.error e => (c, [Action.encGetStatus], some e)
    | Except.ok (_, data) =>
      match sendMsg env c data with
      | some e => (c, [Action.encGetStatus, Action.send data], some e)
      | none => (c, [Action.encGetStatus, Action.send data], none)
  else (c, [], none)

/-- The `gopi.CastFlag` values reported by the state-merge methods:
`CAST_FLAG_NONE`, `CAST_FLAG_VOLUME`, `CAST_FLAG_APP`. -/
inductive CastFlag where
  | flagNone
  | flagVolume
  | flagApp
deriving DecidableEq, Repr

/-- `SetVolume v`: if no volume is cached or the cached volume differs from
`v` by `Equals`, cache `v` and report `gopi.CAST_FLAG_VOLUME`; otherwise
report `gopi.CAST_FLAG_NONE` and leave the cache untouched.  The source
performs no channel or transport call here and always returns a nil error;
the empty action list records the absence of I/O. -/
def setVolume (c : Cast) (v : Volume) : Cast × CastFlag × List Action :=
  match c.volume with
  | none => ({ c with volume := some v }, CastFlag.flagVolume, [])
  | some cur =>
    if cur.Equals v = false then ({ c with volume := some v }, CastFlag.flagVolume, [])
    else (c, CastFlag.flagNone, [])

/-- `SetApp a`: same shape as `SetVolume`, reporting `gopi.CAST_FLAG_APP`. -/
def setApp (c : Cast) (a : App) : Cast × CastFlag × List Action :=
  match c.app with
  | none => ({ c with app := some a }, CastFlag.flagApp, [])
  | some cur =>
    if cur.Equals a = false then ({ c with app := some a }, CastFlag.flagApp, [])
    else (c, CastFlag.flagNone, [])

/-! ### Request methods -/

/-- `ReqLaunchAppWithId appId`: encode a launch-by-id message, then send it;
either failure is returned verbatim. -/
def reqLaunchAppWithId (env : Env) (c : Cast) (appId : String) :
    List Action × Option CastError :=
  match env.launchAppWithId appId with
  | Except.error e => ([Action.encLaunchApp appId], some e)
  | Except.ok (_, data) =>
    match sendMsg env c data with
    | some e => ([Action.encLaunchApp appId, Action.send data], some e)
    | none => ([Action.encLaunchApp appId, Action.send data], none)

/-- The volume value `ReqVolumeLevel` encodes: the level is clamped to
[0, 1], and a clamped level of exactly 0 is replaced by the canonical mute
form `Volume{0, true}`; otherwise `Volume{level, false}` is used. -/
def volumeForLevel (level : ℚ) : Volume :=
  let level := if level < 0 then 0 else if level > 1 then 1 else level
  if level = 0 then { level := 0, muted := true }
  else { level := level, muted := false }

/-- `ReqVolumeLevel level`: clamp, canonicalize via `volumeForLevel`, encode
a set-volume message, send. -/
def reqVolumeLevel (env : Env) (c : Cast) (level : ℚ) :
    List Action × Option CastError :=
  let v := volumeForLevel level
  match env.setVolume v with
  | Except.error e => ([Action.encSetVolume v], some e)
  | Except.ok (_, data) =>
    match sendMsg env c data with
    | some e => ([Action.encSetVolume v, Action.send data], some e)
    | none => ([Action.encSetVolume v, Action.send data], none)

/-- `ReqMuted muted`: encode a set-muted message, send. -/
def reqMuted (env : Env) (c : Cast) (muted : Bool) :
    List Action × Option CastError :=
  match env.setMuted muted with
  | Except.error e => ([Action.encSetMuted muted], some e)
  | Except.ok (_, data) =>
    match sendMsg env c data with
    | some e => ([Action.encSetMuted muted, Action.send data], some e)
    | none => ([Action.encSetMuted muted, Action.send data], none)

/-- `ReqLoadURL url mimetype autoplay`: fails with
`gopi.ErrOutOfOrder.WithPrefix("transportId")` when no app is cached or its
transport id is empty; otherwise step 1 encodes and sends a `ConnectMedia`
binding for the app's transport id, and only if both succeed does step 2
encode and send the `LoadUrl` command; each failure is returned directly. -/
def reqLoadURL (env : Env) (c : Cast) (url mimetype : String) (autoplay : Bool) :
    List Action × Option CastError :=
  match c.app with
  | none => ([], some (CastError.outOfOrder "transportId"))
  | some a =>
    if a.transportId = "" then ([], some (CastError.outOfOrder "transportId"))
    else
      match env.connectMedia a.transportId with
      | Except.error e => ([Action.encConnectMedia a.transportId], some e)
      | Except.ok (_, d1) =>
        match sendMsg env c d1 with
        | some e =>
          ([Action.encConnectMedia a.transportId, Action.send d1], some e)
        | none =>
          match env.loadUrl a.transportId url mimetype autoplay with
          | Except.error e =>
            ([Action.encConnectMedia a.transportId, Action.send d1,
              Action.encLoadUrl a.transportId url mimetype autoplay], some e)
          | Except.ok (_, d2) =>
            match sendMsg env c d2 with
            | some e =>
              ([Action.encConnectMedia a.transportId, Action.send d1,
                Action.encLoadUrl a.transportId url mimetype autoplay,
                Action.send d2], some e)
            | none =>
              ([Action.encConnectMedia a.transportId, Action.send d1,
                Action.encLoadUrl a.transportId url mimetype autoplay,
                Action.send d2], none)

/-- Number of transport writes in an action trace. -/
def countSends (trace : List Action) : Nat :=
  (trace.filter (fun a => match a with | Action.send _ => true | _ => false)).length

/-- The spec's clamping of a requested volume level to [0, 1], written from
the spec's words ("clamp level to [0.0, 1.0]") to compare against the
clamping performed inside `ReqVolumeLevel`. -/
def specClamp (level : ℚ) : ℚ :=
  if level < 0 then 0 else if level > 1 then 1 else level

/-- The casts reachable by the client: constructed from a service record and
then transformed by the state-changing operations (connect, disconnect, and
the dispatch-loop merges; `updateStatus` is included although it writes
nothing). -/
inductive Reachable : Cast → Prop where
  | construct (r : ServiceRecord) (c : Cast) :
      newCastFromRecord r = some c → Reachable c
  | connectStep (env : Env) (c : Cast) :
      Reachable c → Reachable (connectWithTimeout env c).2.1
  | disconnectStep (env : Env) (c : Cast) :
      Reachable c → Reachable (disconnect env c).1
  | setVolumeStep (c : Cast) (v : Volume) :
      Reachable c → Reachable (setVolume c v).1
  | setAppStep (c : Cast) (a : App) :
      Reachable c → Reachable (setApp c a).1
  | updateStatusStep (env : Env) (c : Cast) :
      Reachable c → Reachable (updateStatus env c).1

/-! ### Concrete instances used by the witnesses -/

/-- A discovered record with id, friendly name and model in its TXT data. -/
def rW : ServiceRecord :=
  { port := 8009, addrs := ["10.0.0.5"], txt := ["id=abc123", "fn=Living", "md=Chromecast"] }

/-- A record carrying only an id. -/
def r0 : ServiceRecord :=
  { port := 8009, addrs := ["10.0.0.5"], txt := ["id=abc123"] }

/-- The cast produced from `rW`. -/
def cW : Cast :=
  { id := "abc123", fn := "Living", md := "Chromecast", rs := "", st := 0,
    ips := ["10.0.0.5"], port := 8009, volume := none, app := none,
    conn := ConnState.disconnected }

/-- The cast produced from `r0`: empty caches, disconnected. -/
def cast0 : Cast :=
  { id := "abc123", fn := "abc123", md := "", rs := "", st := 0,
    ips := ["10.0.0.5"], port := 8009, volume := none, app := none,
    conn := ConnState.disconnected }

/-- A cached volume value. -/
def volW : Volume := { level := 1/2, muted := false }

/-- A cached app value with a non-empty transport id. -/
def appW : App :=
  { appId := "CC1AD845", displayName := "Backdrop", transportId := "tid1",
    statusText := "" }

/-- `cast0` once connected (empty caches). -/
def castConn : Cast := { cast0 with conn := ConnState.connected }

/-- `castConn` with a cached app. -/
def castApp : Cast := { castConn with app := some appW }

/-- `cast0` with both caches populated but not connected. -/
def castFullC : Cast := { cast0 with volume := some volW, app := some appW }

/-- `castConn` with both caches populated. -/
def castFullConn : Cast := { castConn with volume := some volW, app := some appW }

/-- `cast0` with its address list emptied (not producible by construction;
used to exercise the no-address branch). -/
def castNoIps : Cast := { cast0 with ips := [] }

/-- An environment whose channel encoders and transport always succeed. -/
def envOK : Env :=
  { getStatus := Except.ok (1, "p1")
    launchAppWithId := fun _ => Except.ok (2, "p2")
    setVolume := fun _ => Except.ok (3, "p3")
    setMuted := fun _ => Except.ok (4, "p4")
    connectMedia := fun _ => Except.ok (5, "p5")
    loadUrl := fun _ _ _ _ => Except.ok (6, "p6")
    sendOut := fun _ => none
    connectOut := fun _ => none
    teardown := none }

/-- `envOK` with a failing `ConnectMedia` encoder. -/
def envEncFail : Env :=
  { envOK with connectMedia := fun _ => Except.error (CastError.external "encode failed") }

/-- `envOK` with a failing transport write. -/
def envSendFail : Env :=
  { envOK with sendOut := fun _ => some (CastError.external "send failed") }

/-- `envOK` with a failing teardown. -/
def envTearFail : Env :=
  { envOK with teardown := some (CastError.external "teardown failed") }

/-- `envOK` with a failing transport dial. -/
def envDialFail : Env :=
  { envOK with connectOut := fun _ => some (CastError.external "dial failed") }

/-! ## Helper lemmas -/

/-- `UpdateStatus` writes no field of the cast. -/
lemma updateStatus_fst (env : Env) (c : Cast) : (updateStatus env c).1 = c := by
  unfold updateStatus
  split
  · cases env.getStatus with
    | error e => rfl
    | ok p =>
      cases p with
      | mk n d =>
        simp only
        cases sendMsg env c d <;> rfl
  · rfl

/-- A successfully constructed cast keeps the record's address list, which
is non-empty. -/
lemma newCastFromRecord_ips (r : ServiceRecord) (c : Cast)
    (h : newCastFromRecord r = some c) : c.ips = r.addrs ∧ r.addrs ≠ [] := by
  unfold newCastFromRecord at h
  by_cases hp : r.port = 0
  · simp [hp] at h
  · by_cases ha : r.addrs.length = 0
    · simp [hp, ha] at h
    · cases hid : mapGet (txtToMap r.txt) "id" with
      | none => simp [hp, ha, hid] at h
      | some i =>
        by_cases hi : i = ""
        · simp [hp, ha, hid, hi] at h
        · simp only [hp, ha, hid, hi, if_false, if_neg, Option.some.injEq] at h
          subst h
          exact ⟨rfl, fun hnil => ha (by simp [hnil])⟩

/-- `SetVolume` does not change the address list. -/
lemma setVolume_ips (c : Cast) (v : Volume) : ((setVolume c v).1).ips = c.ips := by
  unfold setVolume
  cases c.volume with
  | none => rfl
  | some cur => by_cases h : cur.Equals v = false <;> simp [h]

/-- `SetApp` does not change the address list. -/
lemma setApp_ips (c : Cast) (a : App) : ((setApp c a).1).ips = c.ips := by
  unfold setApp
  cases c.app with
  | none => rfl
  | some cur => by_cases h : cur.Equals a = false <;> simp [h]

/-- `Disconnect` does not change the address list. -/
lemma disconnect_ips (env : Env) (c : Cast) : ((disconnect env c).1).ips = c.ips := rfl

/-- `ConnectWithTimeout` does not change the address list. -/
lemma connectWithTimeout_ips (env : Env) (c : Cast) :
    ((connectWithTimeout env c).2.1).ips = c.ips := by
  unfold connectWithTimeout
  cases hips : c.ips with
  | nil => simpa using hips
  | cons ip rest =>
    simp only
    cases connConnect env c (ip ++ ":" ++ toString c.port) <;> simp [hips]

/-! ## Claims -/

/-- C1: a Device is constructed from a record exactly when the TXT `id` is
present and non-empty, the port is non-zero, and the record has at least
one address; on success `Name()` is the TXT friendly name when present and
non-empty and the id otherwise, and the model/status text default to empty
when absent. -/
theorem newCastFromRecord_correct (r : ServiceRecord) :
    ((newCastFromRecord r).isSome ↔
      ((mapGet (txtToMap r.txt) "id").getD "" ≠ "" ∧ r.port ≠ 0 ∧ r.addrs ≠ []))
  ∧ ∀ c, newCastFromRecord r = some c →
      ((∀ f, mapGet (txtToMap r.txt) "fn" = some f → f ≠ "" → c.Name = f)
       ∧ (mapGet (txtToMap r.txt) "fn" = none → c.Name = c.Id)
       ∧ (mapGet (txtToMap r.txt) "fn" = some "" → c.Name = c.Id)
       ∧ (mapGet (txtToMap r.txt) "md" = none → c.md = "")
       ∧ (mapGet (txtToMap r.txt) "rs" = none → c.rs = "")
       ∧ mapGet (txtToMap r.txt) "id" = some c.Id) := by
  constructor
  · unfold newCastFromRecord
    by_cases hp : r.port = 0
    · simp [hp]
    · by_cases ha : r.addrs.length = 0
      · simp [hp, ha, List.length_eq_zero.mp ha]
      · have ha' : r.addrs ≠ [] := by
          intro h; exact ha (by simp [h])
        cases hid : mapGet (txtToMap r.txt) "id" with
        | none => simp [hp, ha, hid, ha']
        | some i =>
          by_cases hi : i = "" <;> simp [hp, ha, hid, hi, ha']
  · intro c hc
    unfold newCastFromRecord at hc
    by_cases hp : r.port = 0
    · simp [hp] at hc
    · by_cases ha : r.addrs.length = 0
      · simp [hp, ha] at hc
      · cases hid : mapGet (txtToMap r.txt) "id" with
        | none => simp [hp, ha, hid] at hc
        | some i =>
          by_cases hi : i = ""
          · simp [hp, ha, hid, hi] at hc
          · simp only [hp, ha, hid, hi, if_false, if_neg, Option.some.injEq] at hc
            subst hc
            refine ⟨?_, ?_, ?_, ?_, ?_, rfl⟩
            · intro f hfn hf
              simp [Cast.Name, hfn, hf]
            · intro hfn
              simp [Cast.Name, Cast.Id, hfn]
            · intro hfn
              simp [Cast.Name, Cast.Id, hfn]
            · intro hmd
              simp [hmd]
            · intro hrs
              simp [hrs]

/-- C1 witness: `rW` constructs `cW`, whose name comes from the TXT friendly
name, and `r0` (no friendly name) constructs a cast named after its id. -/
theorem newCastFromRecord_correct_witness :
    (newCastFromRecord rW).isSome ∧ cW.Name = "Living" ∧ cast0.Name = cast0.Id :=
  ⟨((newCastFromRecord_correct rW).1).mpr (by decide),
   ((newCastFromRecord_correct rW).2 cW (by rfl)).1 "Living" (by rfl) (by decide),
   (((newCastFromRecord_correct r0).2 cast0 (by rfl)).2).1 (by rfl)⟩

/-- C2: `ReqVolumeLevel` clamps the level to [0, 1] before encoding; a
clamped level of exactly 0 is encoded as the canonical mute form
(level 0, muted), any other clamped level with muted=false; in particular
the requests for levels -0.3 and 0.0 are indistinguishable, and level 1.7
encodes level 1 with muted=false. -/
theorem reqVolumeLevel_clamps (env : Env) (c : Cast) (level : ℚ) :
    reqVolumeLevel env c level = reqVolumeLevel env c (specClamp level)
  ∧ volumeForLevel level =
      (if specClamp level = 0 then { level := 0, muted := true }
       else { level := specClamp level, muted := false })
  ∧ reqVolumeLevel env c (-3/10) = reqVolumeLevel env c 0
  ∧ volumeForLevel (-3/10) = { level := 0, muted := true }
  ∧ volumeForLevel (17/10) = { level := 1, muted := false } := by
  have key : ∀ l : ℚ, volumeForLevel (specClamp l) = volumeForLevel l := by
    intro l
    unfold specClamp volumeForLevel
    split_ifs <;> first | rfl | (exfalso; linarith)
  have hv : ∀ l : ℚ, volumeForLevel l =
      (if specClamp l = 0 then ({ level := 0, muted := true } : Volume)
       else { level := specClamp l, muted := false }) := by
    intro l
    rw [← key l]
    unfold specClamp volumeForLevel
    split_ifs <;> first | rfl | (exfalso; linarith) | simp_all
  refine ⟨?_, hv level, ?_, ?_, ?_⟩
  · unfold reqVolumeLevel
    rw [key level]
  · unfold reqVolumeLevel
    rw [show volumeForLevel (-3/10) = volumeForLevel 0 by norm_num [volumeForLevel]]
  · norm_num [volumeForLevel]
  · norm_num [volumeForLevel]

/-- C3: `ReqLoadURL` fails with the ordering error when no app is cached or
its transport id is empty; otherwise it first binds a media channel
(`ConnectMedia` encode + send) and only then issues the load command, and
any encode or send failure in the first step is returned directly with the
second step never attempted (its trace contains no `encLoadUrl` and no
second send). -/
theorem reqLoadURL_ordering (env : Env) (c : Cast) (u m : String) (ap : Bool) :
    ((c.app = none ∨ ∃ a, c.app = some a ∧ a.transportId = "") →
      reqLoadURL env c u m ap = ([], some (CastError.outOfOrder "transportId")))
  ∧ (∀ a, c.app = some a → a.transportId ≠ "" →
      ((∀ e, env.connectMedia a.transportId = Except.error e →
          reqLoadURL env c u m ap = ([Action.encConnectMedia a.transportId], some e))
       ∧ (∀ n d1 e, env.connectMedia a.transportId = Except.ok (n, d1) →
            sendMsg env c d1 = some e →
            reqLoadURL env c u m ap
              = ([Action.encConnectMedia a.transportId, Action.send d1], some e))
       ∧ (∀ n d1 n2 d2, env.connectMedia a.transportId = Except.ok (n, d1) →
            sendMsg env c d1 = none →
            env.loadUrl a.transportId u m ap = Except.ok (n2, d2) →
            reqLoadURL env c u m ap
              = ([Action.encConnectMedia a.transportId, Action.send d1,
                  Action.encLoadUrl a.transportId u m ap, Action.send d2],
                 sendMsg env c d2)))) := by
  constructor
  · intro h
    rcases h with h | ⟨a, ha, hta⟩
    · simp [reqLoadURL, h]
    · simp [reqLoadURL, ha, hta]
  · intro a ha hta
    refine ⟨?_, ?_, ?_⟩
    · intro e he
      simp [reqLoadURL, ha, hta, he]
    · intro n d1 e hcm hs
      simp [reqLoadURL, ha, hta, hcm, hs]
    · intro n d1 n2 d2 hcm hs hlu
      simp only [reqLoadURL, ha, hta, hcm, hs, hlu, if_neg]
      cases h2 : sendMsg env c d2 <;> simp [h2, hta]

/-- C3 witness: with no cached app the ordering error is produced; with a
cached app and a failing `ConnectMedia` encoder the encode error is
returned with only the encode attempted; with a failing transport the send
error is returned after one send, the load step never attempted. -/
theorem reqLoadURL_ordering_witness :
    reqLoadURL envOK cast0 "http://h/v.mp4" "video/mp4" true
      = ([], some (CastError.outOfOrder "transportId"))
  ∧ reqLoadURL envEncFail castApp "http://h/v.mp4" "video/mp4" true
      = ([Action.encConnectMedia "tid1"], some (CastError.external "encode failed"))
  ∧ reqLoadURL envSendFail castApp "http://h/v.mp4" "video/mp4" true
      = ([Action.encConnectMedia "tid1", Action.send "p5"],
         some (CastError.external "send failed")) :=
  ⟨(reqLoadURL_ordering envOK cast0 "http://h/v.mp4" "video/mp4" true).1 (Or.inl rfl),
   ((reqLoadURL_ordering envEncFail castApp "http://h/v.mp4" "video/mp4" true).2
      appW rfl (by decide)).1 (CastError.external "encode failed") rfl,
   ((reqLoadURL_ordering envSendFail castApp "http://h/v.mp4" "video/mp4" true).2
      appW rfl (by decide)).2.1 5 "p5" (CastError.external "send failed") rfl rfl⟩

/-- C4 counterexample: on a connected cast with both caches empty, the
first `UpdateStatus` call sends one status request but records nothing
(the cast is returned unchanged), so a second call before any reply sends
one more request, not zero as the claim states. -/
theorem updateStatus_inflight_counterexample :
    countSends (updateStatus envOK castConn).2.1 = 1
  ∧ (updateStatus envOK castConn).1 = castConn
  ∧ countSends (updateStatus envOK (updateStatus envOK castConn).1).2.1 = 1
  ∧ countSends (updateStatus envOK (updateStatus envOK castConn).1).2.1 ≠ 0 := by
  refine ⟨rfl, rfl, rfl, by decide⟩

/-- C4 (amended): on a connected cast with both caches empty, one
`UpdateStatus` call issues exactly one outbound status request, and a
second immediate call issues one additional request (no in-flight claim is
recorded: the first call leaves the cast unchanged). -/
theorem updateStatus_second_call_repeats (env : Env) (c : Cast) (n : Nat) (d : String)
    (hv : c.volume = none) (hap : c.app = none)
    (henc : env.getStatus = Except.ok (n, d)) :
    countSends (updateStatus env c).2.1 = 1
  ∧ (updateStatus env c).1 = c
  ∧ countSends (updateStatus env (updateStatus env c).1).2.1 = 1 := by
  have h1 : countSends (updateStatus env c).2.1 = 1 := by
    unfold updateStatus
    simp only [hv, hap, henc, Option.isNone_none, Bool.true_or]
    simp only [if_true]
    cases sendMsg env c d <;> simp [countSends]
  exact ⟨h1, updateStatus_fst env c, by rw [updateStatus_fst env c]; exact h1⟩

/-- C4 amended-theorem witness: instantiated on `castConn` and the
always-successful environment. -/
theorem updateStatus_second_call_repeats_witness :
    countSends (updateStatus envOK castConn).2.1 = 1
  ∧ (updateStatus envOK castConn).1 = castConn
  ∧ countSends (updateStatus envOK (updateStatus envOK castConn).1).2.1 = 1 :=
  updateStatus_second_call_repeats envOK castConn 1 "p1" rfl rfl rfl

/-- C5: `UpdateStatus` is a no-op returning success when both caches are
known; when either is unknown it issues exactly one outbound get-status
request (encode, then a single send); and it never modifies the cast
synchronously. -/
theorem updateStatus_cache_policy (env : Env) (c : Cast) :
    (∀ v a, c.volume = some v → c.app = some a → updateStatus env c = (c, [], none))
  ∧ ((c.volume = none ∨ c.app = none) →
      ∀ n d, env.getStatus = Except.ok (n, d) →
        (updateStatus env c).2.1 = [Action.encGetStatus, Action.send d]
        ∧ countSends (updateStatus env c).2.1 = 1)
  ∧ (updateStatus env c).1 = c := by
  refine ⟨?_, ?_, updateStatus_fst env c⟩
  · intro v a hv ha
    unfold updateStatus
    simp [hv, ha]
  · intro h n d henc
    have htr : (updateStatus env c).2.1 = [Action.encGetStatus, Action.send d] := by
      unfold updateStatus
      have hcond : (c.volume.isNone || c.app.isNone) = true := by
        rcases h with h | h <;> simp [h]
      simp only [hcond, if_true, henc]
      cases sendMsg env c d <;> rfl
    exact ⟨htr, by rw [htr]; rfl⟩

/-- C5 witness: with both caches populated the call is a no-op; with the
caches empty it performs exactly the encode and one send, and the cast is
unchanged. -/
theorem updateStatus_cache_policy_witness :
    updateStatus envOK castFullConn = (castFullConn, [], none)
  ∧ (updateStatus envOK castConn).2.1 = [Action.encGetStatus, Action.send "p1"]
  ∧ countSends (updateStatus envOK castConn).2.1 = 1
  ∧ (updateStatus envOK castConn).1 = castConn :=
  ⟨(updateStatus_cache_policy envOK castFullConn).1 volW appW rfl rfl,
   ((updateStatus_cache_policy envOK castConn).2.1 (Or.inl rfl) 1 "p1" rfl).1,
   ((updateStatus_cache_policy envOK castConn).2.1 (Or.inl rfl) 1 "p1" rfl).2,
   (updateStatus_cache_policy envOK castConn).2.2⟩

/-- C6: `SetVolume` (and `SetApp`) compares its argument by value against
the cache: with an empty or differing cache it stores the value and reports
the changed-aspect flag; with an equal cached value it reports no change
and leaves the cast untouched; neither performs any I/O (empty action
trace). -/
theorem setVolume_setApp_cache (c : Cast) (v : Volume) (a : App) :
    (c.volume = none → setVolume c v = ({ c with volume := some v }, CastFlag.flagVolume, []))
  ∧ (∀ cur, c.volume = some cur → cur.Equals v = false →
      setVolume c v = ({ c with volume := some v }, CastFlag.flagVolume, []))
  ∧ (c.volume = some v → setVolume c v = (c, CastFlag.flagNone, []))
  ∧ (setVolume c v).2.2 = []
  ∧ (c.app = none → setApp c a = ({ c with app := some a }, CastFlag.flagApp, []))
  ∧ (∀ cur, c.app = some cur → cur.Equals a = false →
      setApp c a = ({ c with app := some a }, CastFlag.flagApp, []))
  ∧ (c.app = some a → setApp c a = (c, CastFlag.flagNone, []))
  ∧ (setApp c a).2.2 = [] := by
  have hvrefl : v.Equals v = true := by simp [Volume.Equals]
  have harefl : a.Equals a = true := by simp [App.Equals]
  refine ⟨?_, ?_, ?_, ?_, ?_, ?_, ?_, ?_⟩
  · intro h; simp [setVolume, h]
  · intro cur h hne; simp [setVolume, h, hne]
  · intro h; simp [setVolume, h, hvrefl]
  · unfold setVolume
    cases c.volume with
    | none => rfl
    | some cur => by_cases h : cur.Equals v = false <;> simp [h]
  · intro h; simp [setApp, h]
  · intro cur h hne; simp [setApp, h, hne]
  · intro h; simp [setApp, h, harefl]
  · unfold setApp
    cases c.app with
    | none => rfl
    | some cur => by_cases h : cur.Equals a = false <;> simp [h]

/-- C6 witness: on a cast caching `volW`, setting `volW` again reports no
change and leaves the cast untouched, while setting it on an empty cache
stores it and reports the volume flag; both with an empty I/O trace. -/
theorem setVolume_setApp_cache_witness :
    setVolume castFullConn volW = (castFullConn, CastFlag.flagNone, [])
  ∧ setVolume cast0 volW
      = ({ cast0 with volume := some volW }, CastFlag.flagVolume, [])
  ∧ setApp castFullConn appW = (castFullConn, CastFlag.flagNone, []) :=
  ⟨(setVolume_setApp_cache castFullConn volW appW).2.2.1 rfl,
   (setVolume_setApp_cache cast0 volW appW).1 rfl,
   (setVolume_setApp_cache castFullConn volW appW).2.2.2.2.2.2.1 rfl⟩

/-- C7: `Disconnect` always resets the cached volume and app state to
unknown, for every teardown outcome, and a teardown error is wrapped in a
`multierror` aggregate and returned rather than blocking the reset. -/
theorem disconnect_resets (env : Env) (c : Cast) :
    (disconnect env c).1.volume = none
  ∧ (disconnect env c).1.app = none
  ∧ (disconnect env c).2 = env.teardown.map (fun e => CastError.aggregate [e]) :=
  ⟨rfl, rfl, rfl⟩

/-- C8: `ConnectWithTimeout` fails with the no-address not-found error on
an empty address list; otherwise it dials exactly the first address, and
resets the cached volume and app state exactly when the connect attempt
succeeds, leaving the cast unchanged when it fails. -/
theorem connectWithTimeout_first_address (env : Env) (c : Cast) :
    (c.ips = [] →
      connectWithTimeout env c
        = ([], c, some (CastError.notFound "ConnectWithTimeout" "No Address")))
  ∧ (∀ ip rest, c.ips = ip :: rest →
      ((connectWithTimeout env c).1 = [Action.connect (ip ++ ":" ++ toString c.port)]
       ∧ (∀ e, connConnect env c (ip ++ ":" ++ toString c.port) = some e →
           connectWithTimeout env c
             = ([Action.connect (ip ++ ":" ++ toString c.port)], c, some e))
       ∧ (connConnect env c (ip ++ ":" ++ toString c.port) = none →
           connectWithTimeout env c
             = ([Action.connect (ip ++ ":" ++ toString c.port)],
                { c with volume := none, app := none, conn := ConnState.connected },
                none)))) := by
  constructor
  · intro h
    simp [connectWithTimeout, h]
  · intro ip rest hips
    refine ⟨?_, ?_, ?_⟩
    · unfold connectWithTimeout
      rw [hips]
      simp only
      cases connConnect env c (ip ++ ":" ++ toString c.port) <;> rfl
    · intro e he
      unfold connectWithTimeout
      rw [hips]
      simp [he]
    · intro he
      unfold connectWithTimeout
      rw [hips]
      simp [he]

/-- C8 witness: the no-address branch on `castNoIps`, a successful dial on
`cast0` resetting the caches, and a failed dial leaving the populated
`castFullC` unchanged. -/
theorem connectWithTimeout_first_address_witness :
    connectWithTimeout envOK castNoIps
      = ([], castNoIps, some (CastError.notFound "ConnectWithTimeout" "No Address"))
  ∧ connectWithTimeout envOK cast0
      = ([Action.connect "10.0.0.5:8009"],
         { cast0 with volume := none, app := none, conn := ConnState.connected }, none)
  ∧ connectWithTimeout envDialFail castFullC
      = ([Action.connect "10.0.0.5:8009"], castFullC,
         some (CastError.external "dial failed")) :=
  ⟨(connectWithTimeout_first_address envOK castNoIps).1 rfl,
   ((connectWithTimeout_first_address envOK cast0).2 "10.0.0.5" [] rfl).2.2 rfl,
   ((connectWithTimeout_first_address envDialFail castFullC).2 "10.0.0.5" [] rfl).2.1
     (CastError.external "dial failed") rfl⟩

/-- C9 counterexample: on `castFullC`, whose connection state is not
Connected but whose caches are populated, `UpdateStatus` returns success
rather than failing with an ordering error; and `ReqLaunchAppWithId` on the
disconnected `cast0` fails with the transport error produced by `send`,
not an ordering error. -/
theorem req_not_connected_counterexample :
    castFullC.conn ≠ ConnState.connected
  ∧ (updateStatus envOK castFullC).2.2 = none
  ∧ cast0.conn ≠ ConnState.connected
  ∧ (reqLaunchAppWithId envOK cast0 "CC1AD845").2
      = some (CastError.transport "connection not established") :=
  ⟨by decide, rfl, by decide, rfl⟩

/-- C9 (amended): the request methods perform no connection-state check of
their own; when the device is not Connected, a request that reaches the
transport fails with the transport error of the `send` primitive (not an
ordering error), and `UpdateStatus` with both caches populated returns
success without sending at all. -/
theorem req_not_connected_transport (env : Env) (c : Cast)
    (h : c.conn ≠ ConnState.connected) :
    (∀ appId n d, env.launchAppWithId appId = Except.ok (n, d) →
      (reqLaunchAppWithId env c appId).2
        = some (CastError.transport "connection not established"))
  ∧ (∀ level n d, env.setVolume (volumeForLevel level) = Except.ok (n, d) →
      (reqVolumeLevel env c level).2
        = some (CastError.transport "connection not established"))
  ∧ (∀ muted n d, env.setMuted muted = Except.ok (n, d) →
      (reqMuted env c muted).2
        = some (CastError.transport "connection not established"))
  ∧ (∀ a u mt ap n d, c.app = some a → a.transportId ≠ "" →
      env.connectMedia a.transportId = Except.ok (n, d) →
      (reqLoadURL env c u mt ap).2
        = some (CastError.transport "connection not established"))
  ∧ ((c.volume = none ∨ c.app = none) → ∀ n d, env.getStatus = Except.ok (n, d) →
      (updateStatus env c).2.2
        = some (CastError.transport "connection not established"))
  ∧ (∀ v a, c.volume = some v → c.app = some a → (updateStatus env c).2.2 = none) := by
  have hs : ∀ d, sendMsg env c d = some (CastError.transport "connection not established") := by
    intro d
    simp [sendMsg, h]
  refine ⟨?_, ?_, ?_, ?_, ?_, ?_⟩
  · intro appId n d henc
    simp [reqLaunchAppWithId, henc, hs]
  · intro level n d henc
    simp [reqVolumeLevel, henc, hs]
  · intro muted n d henc
    simp [reqMuted, henc, hs]
  · intro a u mt ap n d ha hta henc
    simp [reqLoadURL, ha, hta, henc, hs]
  · intro hc n d henc
    have hcond : (c.volume.isNone || c.app.isNone) = true := by
      rcases hc with hc | hc <;> simp [hc]
    simp [updateStatus, hcond, henc, hs]
  · intro v a hv ha
    simp [updateStatus, hv, ha]

/-- C9 amended-theorem witness: instantiated on the disconnected `cast0`
and `castFullC` with the always-successful environment. -/
theorem req_not_connected_transport_witness :
    (reqLaunchAppWithId envOK cast0 "CC1AD845").2
      = some (CastError.transport "connection not established")
  ∧ (reqVolumeLevel envOK cast0 (1/2)).2
      = some (CastError.transport "connection not established")
  ∧ (updateStatus envOK castFullC).2.2 = none :=
  ⟨(req_not_connected_transport envOK cast0 (by decide)).1 "CC1AD845" 2 "p2" rfl,
   (req_not_connected_transport envOK cast0 (by decide)).2.1 (1/2) 3 "p3" rfl,
   (req_not_connected_transport envOK castFullC (by decide)).2.2.2.2.2 volW appW rfl rfl⟩

/-- C10: every cast reachable from a successful construction keeps a
non-empty address list (no operation removes addresses), so the no-address
not-found branch of `ConnectWithTimeout` is unreachable: whenever the
abstracted dial outcome is never that error value, `ConnectWithTimeout`
never returns it. -/
theorem reachable_no_notfound (c : Cast) (hc : Reachable c) :
    c.ips ≠ []
  ∧ ∀ env : Env,
      (∀ addr, env.connectOut addr
        ≠ some (CastError.notFound "ConnectWithTimeout" "No Address")) →
      (connectWithTimeout env c).2.2
        ≠ some (CastError.notFound "ConnectWithTimeout" "No Address") := by
  have hips : c.ips ≠ [] := by
    induction hc with
    | construct r c h =>
      rcases newCastFromRecord_ips r c h with ⟨h1, h2⟩
      rw [h1]; exact h2
    | connectStep env c _ ih => rw [connectWithTimeout_ips]; exact ih
    | disconnectStep env c _ ih => rw [disconnect_ips]; exact ih
    | setVolumeStep c v _ ih => rw [setVolume_ips]; exact ih
    | setAppStep c a _ ih => rw [setApp_ips]; exact ih
    | updateStatusStep env c _ ih => rw [updateStatus_fst]; exact ih
  refine ⟨hips, ?_⟩
  intro env henv
  cases hl : c.ips with
  | nil => exact absurd hl hips
  | cons ip rest =>
    unfold connectWithTimeout
    rw [hl]
    simp only
    cases hcc : connConnect env c (ip ++ ":" ++ toString c.port) with
    | none => simp
    | some e =>
      intro he
      rw [Option.some.injEq] at he
      subst he
      unfold connConnect at hcc
      by_cases hconn : c.conn = ConnState.connected
      · rw [if_pos hconn] at hcc
        exact absurd hcc.symm (by simp)
      · rw [if_neg hconn] at hcc
        exact henv (ip ++ ":" ++ toString c.port) hcc

/-- C10 witness: `cast0` is reachable (constructed from `r0`), has an
address, and `ConnectWithTimeout` under an environment whose dial outcomes
never carry the no-address error does not return that error. -/
theorem reachable_no_notfound_witness :
    cast0.ips ≠ []
  ∧ (connectWithTimeout envOK cast0).2.2
      ≠ some (CastError.notFound "ConnectWithTimeout" "No Address") :=
  ⟨(reachable_no_notfound cast0 (Reachable.construct r0 cast0 (by rfl))).1,
   (reachable_no_notfound cast0 (Reachable.construct r0 cast0 (by rfl))).2 envOK
     (fun addr => by simp [envOK])⟩

end GoogleCast
